import Mathlib

/-!
Shallow embedding of the document routing engine
(`microservices/routing_engine/app/router.py`, class `DocumentRouter`).

Modelling conventions:
* JSONB values (rule conditions, document context, entities) are the inductive
  type `JVal`; Python dicts become association lists looked up by first key.
* Machine floats are modelled as exact rationals (`ℚ`); `-0.2` is `-(1/5)`.
* Timestamps (`datetime`) are rationals counting hours since an arbitrary
  epoch, so `timedelta(hours=h)` is `+ h` and `total_seconds()` of a
  difference `d` is `d * 3600`.
* The SQLAlchemy session is a `RouterState` record holding the three tables
  the router touches; queries become list operations over it, and the
  auto-increment assignment id becomes the `next_assignment_id` counter.
* Python `try/except` in `_evaluate_rule_condition`: every reachable exception
  (a `TypeError` from comparing a number with a non-number `gt/lt/gte/lte`
  bound, an `AttributeError` from `.lower()` on a non-string `contains`
  value) makes the whole evaluation return `False`; the embedding returns
  `false` for the constraint at fault, which yields the same overall result.
* String helpers are re-implemented by structural recursion on `List Char`
  (ASCII lowering, as `Char.toLower` does) so that they evaluate.
-/

/-- Substring test on character lists: Python's `needle in hay`. -/
def substr_mem (needle : List Char) : List Char → Bool
  | [] => needle.isEmpty
  | c :: rest => needle.isPrefixOf (c :: rest) || substr_mem needle rest

/-- Python `needle.lower() in hay.lower()` (case-insensitive substring). -/
def lower_in (needle hay : String) : Bool :=
  substr_mem (needle.data.map Char.toLower) (hay.data.map Char.toLower)

/-- Worker for `replace_team`; the fuel (initially the string length) only
bounds the recursion and is never exhausted. -/
def replace_team_go : Nat → List Char → List Char
  | 0, l => l
  | _ + 1, [] => []
  | n + 1, c :: rest =>
    if "-team".data.isPrefixOf (c :: rest) then replace_team_go n (rest.drop 4)
    else c :: replace_team_go n rest

/-- Python `s.replace('-team', '')`: removes every occurrence of `-team`,
left to right, anywhere in the string. -/
def replace_team (s : String) : String := ⟨replace_team_go s.data.length s.data⟩

/-- Removing `-team` only when it is a suffix. This is the reading of the
specification sentence "the team name with any `-team` suffix stripped";
it is compared against the source's `replace_team` (claim C3). -/
def strip_team_suffix (s : String) : String :=
  if "-team".data.isSuffixOf s.data then ⟨s.data.take (s.data.length - 5)⟩ else s

/-- JSON values as stored in JSONB columns and produced by the pipeline.
Python `bool` is a subclass of `int`, which `as_num` accounts for. -/
inductive JVal where
  | s (v : String)
  | n (v : ℚ)
  | b (v : Bool)
  | arr (items : List JVal)
  | obj (fields : List (String × JVal))
  | null

/-- First-match lookup in an association list (Python dict access). -/
def lookupJ (key : String) : List (String × JVal) → Option JVal
  | [] => none
  | (k, v) :: rest => if k = key then some v else lookupJ key rest

/-- Python `isinstance(x, (int, float))` view of a value: numbers are
themselves, `True`/`False` are `1`/`0`, everything else is not a number. -/
def as_num : JVal → Option ℚ
  | .n v => some v
  | .b v => some (if v then 1 else 0)
  | _ => none

/-- Python truthiness of a JSON value. -/
def truthyJ : JVal → Bool
  | .s v => !v.data.isEmpty
  | .n v => decide (v ≠ 0)
  | .b v => v
  | .arr items => !items.isEmpty
  | .obj fields => !fields.isEmpty
  | .null => false

/-- The plain-string branch of `_evaluate_rule_condition`: case-insensitive
substring match against a string context value, or against any string
element of a list context value; any other context type fails. -/
def str_match (ev : String) : JVal → Bool
  | .s cv => lower_in ev cv
  | .arr items => items.any fun item =>
      match item with
      | .s it => lower_in ev it
      | _ => false
  | _ => false

/-- The numeric branch: the context value must be a number equal to the
expected number. -/
def num_match (ev : ℚ) (cv : JVal) : Bool :=
  match as_num cv with
  | some c => decide (c = ev)
  | none => false

/-- One comparison key (`gt`/`lt`/`gte`/`lte`) of a nested constraint object.
Absent key: satisfied. Non-numeric context value: the `isinstance` guard
fails. Numeric context value but non-numeric bound: the Python comparison
raises `TypeError`, which the surrounding `except` turns into `False`. -/
def cmp_check (cmp : ℚ → ℚ → Bool) (key : String) (fields : List (String × JVal))
    (cv : JVal) : Bool :=
  match lookupJ key fields with
  | none => true
  | some bound =>
    match as_num cv, as_num bound with
    | some c, some b => cmp c b
    | _, _ => false

/-- The `contains` key of a nested constraint object. The source touches the
`contains` value only when the context value is a string or a list; a
non-string `contains` value then raises `AttributeError` (string case) or
leaves `found = False` (list case), making the constraint fail either way. -/
def contains_check (fields : List (String × JVal)) (cv : JVal) : Bool :=
  match lookupJ "contains" fields with
  | none => true
  | some (.s needle) =>
    match cv with
    | .s hay => lower_in needle hay
    | .arr items => items.any fun item =>
        match item with
        | .s it => lower_in needle it
        | _ => false
    | _ => true
  | some _ =>
    match cv with
    | .s _ => false
    | .arr _ => false
    | _ => true

/-- A nested constraint object: all present keys among `gt`, `lt`, `gte`,
`lte`, `contains` must hold. -/
def dict_match (fields : List (String × JVal)) (cv : JVal) : Bool :=
  cmp_check (fun c b => decide (b < c)) "gt" fields cv &&
  cmp_check (fun c b => decide (c < b)) "lt" fields cv &&
  cmp_check (fun c b => decide (b ≤ c)) "gte" fields cv &&
  cmp_check (fun c b => decide (c ≤ b)) "lte" fields cv &&
  contains_check fields cv

/-- Dispatch on the type of the expected value, as the chain of `isinstance`
tests does. A Python `bool` passes the `(int, float)` test with value 1/0.
An expected value matched by no branch (list, null) imposes nothing. -/
def match_value (expected cv : JVal) : Bool :=
  match expected with
  | .s ev => str_match ev cv
  | .n ev => num_match ev cv
  | .b ev => num_match (if ev then 1 else 0) cv
  | .obj fields => dict_match fields cv
  | .arr _ => true
  | .null => true

/-- `DocumentRouter._evaluate_rule_condition`: every condition key present in
the context must be matched; a key absent from the context is skipped
(`continue`). -/
def evaluate_rule_condition (condition context : List (String × JVal)) : Bool :=
  match condition with
  | [] => true
  | (key, expected) :: rest =>
    match lookupJ key context with
    | none => evaluate_rule_condition rest context
    | some cv =>
      if match_value expected cv then evaluate_rule_condition rest context
      else false

/-- A row of the `users` table (the columns the router reads). `skills` is a
JSONB list of strings; the source treats a non-list as `[]`. -/
structure UserRec where
  id : String
  username : String
  department : Option String
  skills : List String
  workload_capacity : Int
  is_active : Bool
deriving DecidableEq

/-- A row of the `routing_rules` table; also the shape of the synthesized
default rule (whose `condition` is never read, embedded as `[]`). -/
structure RuleRec where
  name : String
  condition : List (String × JVal)
  assignee : Option String
  team : Option String
  priority : Int
  is_active : Bool

/-- A row of the `document_assignments` table. -/
structure AssignmentRec where
  id : Nat
  doc_id : String
  user_id : String
  assigned_by : String
  status : String
  priority : Int
  due_date : ℚ
  created_at : ℚ
  completed_at : Option ℚ
deriving DecidableEq

/-- The database state visible to the router, plus the auto-increment
counter for assignment ids. -/
structure RouterState where
  rules : List RuleRec
  users : List UserRec
  assignments : List AssignmentRec
  next_assignment_id : Nat

/-- The result dictionary of `_find_best_assignee`. -/
structure AssigneeInfo where
  user_id : String
  username : String
  current_workload : ℚ
deriving DecidableEq

/-- The result dictionary of a successful `route_document`. -/
structure RouteResult where
  assignment_id : Nat
  assigned_to : String
  user_id : String
  routing_reason : String
  priority : Int
  due_date : ℚ
deriving DecidableEq

/-- Count of a worker's assignments with status `assigned` or `in_progress`. -/
def active_assignment_count (st : RouterState) (u : UserRec) : Nat :=
  (st.assignments.filter fun a =>
    a.user_id == u.id && (a.status == "assigned" || a.status == "in_progress")).length

/-- The skills adjustment: `-0.2` when the worker has a truthy skills list,
the context has a truthy `doc_type`, and that `doc_type` is an element of
the skills list. -/
def skills_bonus (context : List (String × JVal)) (u : UserRec) : ℚ :=
  match lookupJ "doc_type" context with
  | none => 0
  | some dv =>
    if !u.skills.isEmpty && truthyJ dv then
      match dv with
      | .s d => if u.skills.contains d then -(1/5) else 0
      | _ => 0
    else 0

/-- `effective_workload = active_assignments / max(workload_capacity, 1)
+ skills_bonus`. -/
def effective_workload (st : RouterState) (context : List (String × JVal))
    (u : UserRec) : ℚ :=
  (active_assignment_count st u : ℚ) / ((max u.workload_capacity 1 : Int) : ℚ) +
    skills_bonus context u

/-- The selection loop of `_find_best_assignee`: scan the pool keeping the
first worker whose effective workload is strictly below the best so far
(`none` plays the role of the initial `float('inf')`). -/
def select_lowest_workload (e : UserRec → ℚ) :
    List UserRec → Option (UserRec × ℚ) → Option (UserRec × ℚ)
  | [], best => best
  | u :: rest, best =>
    let is_better :=
      match best with
      | none => true
      | some (_, lowest) => decide (e u < lowest)
    if is_better then select_lowest_workload e rest (some (u, e u))
    else select_lowest_workload e rest best

/-- Active workers whose department equals the given name with `-team`
removed (`User.department == name.replace('-team', '')`). -/
def department_query (st : RouterState) (name : String) : List UserRec :=
  st.users.filter fun u => u.department == some (replace_team name) && u.is_active

/-- Candidate pool construction of `_find_best_assignee`: a specific active
worker named by `assignee`; else the department named by `assignee`; else
(if still empty) the department named by `team`; else all active workers. -/
def candidate_pool (st : RouterState) (rule : RuleRec) : List UserRec :=
  let available_users := st.users.filter fun u => u.is_active
  let from_assignee :=
    match rule.assignee with
    | some a =>
      if a = "" then []
      else
        match st.users.find? (fun u => u.username == a) with
        | some u => if u.is_active then [u] else department_query st a
        | none => department_query st a
    | none => []
  let with_team :=
    match rule.team with
    | some t => if !(t == "") && from_assignee.isEmpty then department_query st t
                else from_assignee
    | none => from_assignee
  if with_team.isEmpty then available_users else with_team

/-- The candidate pool as the specification's claim describes it, with the
team-to-department translation a parameter: instantiated with
`strip_team_suffix` it is the claim's literal reading, with `replace_team`
it is the source's behavior. -/
def candidate_pool_with (strip : String → String) (st : RouterState)
    (rule : RuleRec) : List UserRec :=
  let available_users := st.users.filter fun u => u.is_active
  let from_assignee :=
    match rule.assignee with
    | some a =>
      if a = "" then []
      else
        match st.users.find? (fun u => u.username == a) with
        | some u =>
          if u.is_active then [u]
          else st.users.filter fun v => v.department == some (strip a) && v.is_active
        | none => st.users.filter fun v => v.department == some (strip a) && v.is_active
    | none => []
  let with_team :=
    match rule.team with
    | some t =>
      if !(t == "") && from_assignee.isEmpty then
        st.users.filter fun v => v.department == some (strip t) && v.is_active
      else from_assignee
    | none => from_assignee
  if with_team.isEmpty then available_users else with_team

/-- `DocumentRouter._find_best_assignee`. -/
def find_best_assignee (st : RouterState) (rule : RuleRec)
    (context : List (String × JVal)) : Option AssigneeInfo :=
  let available_users := st.users.filter fun u => u.is_active
  if available_users.isEmpty then none
  else
    match select_lowest_workload (effective_workload st context)
        (candidate_pool st rule) none with
    | none => none
    | some (u, lowest) =>
      some { user_id := u.id, username := u.username, current_workload := lowest }

/-- The `default_mappings` dictionary lookup with default `admin-team`. -/
def default_mappings_get (doc_type : String) : String :=
  if doc_type = "contract" then "legal-team"
  else if doc_type = "invoice" then "finance-team"
  else if doc_type = "legal" then "legal-team"
  else if doc_type = "financial" then "finance-team"
  else if doc_type = "hr" then "hr-team"
  else if doc_type = "technical" then "engineering-team"
  else if doc_type = "report" then "management-team"
  else if doc_type = "correspondence" then "admin-team"
  else "admin-team"

/-- `DocumentRouter._get_default_routing_rule`: the synthesized `DefaultRule`
object (its `condition` and `is_active` are never read downstream). -/
def get_default_routing_rule (doc_type : String) : RuleRec :=
  let assignee := default_mappings_get doc_type
  { name := "Default rule for " ++ doc_type
    condition := []
    assignee := some assignee
    team := some assignee
    priority := 1
    is_active := true }

/-- The `priority_hours` dictionary lookup with default 72. -/
def priority_hours_get (priority : Int) : ℚ :=
  if priority = 5 then 2
  else if priority = 4 then 8
  else if priority = 3 then 24
  else if priority = 2 then 72
  else if priority = 1 then 168
  else 72

/-- The `type_modifiers` dictionary lookup with default 1.0. -/
def type_modifiers_get (doc_type : String) : ℚ :=
  if doc_type = "legal" then 1/2
  else if doc_type = "contract" then 1/2
  else if doc_type = "invoice" then 7/10
  else if doc_type = "financial" then 4/5
  else if doc_type = "hr" then 1
  else if doc_type = "technical" then 6/5
  else if doc_type = "report" then 3/2
  else if doc_type = "correspondence" then 1
  else 1

/-- `DocumentRouter._calculate_due_date` (`now` replaces `datetime.utcnow()`;
times are in hours, so `timedelta(hours=h)` is `+ h`). -/
def calculate_due_date (priority : Int) (doc_type : String) (now : ℚ) : ℚ :=
  now + priority_hours_get priority * type_modifiers_get doc_type

/-- Base hours by priority, written from the claim's table
`{5:2, 4:8, 3:24, 2:72, 1:168}` with default 72. -/
def priority_hours_claim (priority : Int) : ℚ :=
  if priority = 5 then 2
  else if priority = 4 then 8
  else if priority = 3 then 24
  else if priority = 2 then 72
  else if priority = 1 then 168
  else 72

/-- Type modifier, written from the claim's table `{legal:0.5, contract:0.5,
invoice:0.7, financial:0.8, hr:1.0, technical:1.2, report:1.5,
correspondence:1.0}` with default 1.0. -/
def type_modifier_claim (doc_type : String) : ℚ :=
  if doc_type = "legal" then 1/2
  else if doc_type = "contract" then 1/2
  else if doc_type = "invoice" then 7/10
  else if doc_type = "financial" then 4/5
  else if doc_type = "hr" then 1
  else if doc_type = "technical" then 6/5
  else if doc_type = "report" then 3/2
  else if doc_type = "correspondence" then 1
  else 1

/-- The document context dictionary built at the top of `route_document`. -/
def build_context (doc_type : String) (confidence : ℚ)
    (entities : List (String × JVal)) (risk_score : ℚ) (priority : Int) :
    List (String × JVal) :=
  [("doc_type", .s doc_type),
   ("confidence", .n confidence),
   ("entities", .obj entities),
   ("risk_score", .n risk_score),
   ("priority", .n priority),
   ("persons", (lookupJ "persons" entities).getD (.arr [])),
   ("organizations", (lookupJ "organizations" entities).getD (.arr [])),
   ("amounts", (lookupJ "money" entities).getD (.arr [])),
   ("dates", (lookupJ "dates" entities).getD (.arr []))]

/-- Insert a rule into a descending-priority list, after all rules of equal
or higher priority. -/
def insert_rule_desc (r : RuleRec) : List RuleRec → List RuleRec
  | [] => [r]
  | x :: xs => if r.priority ≤ x.priority then x :: insert_rule_desc r xs
               else r :: x :: xs

/-- `ORDER BY priority DESC` of the rules query (the database leaves the
order among equal priorities unspecified; insertion sort is one choice). -/
def sort_rules_desc (l : List RuleRec) : List RuleRec := l.foldr insert_rule_desc []

/-- The rules query of `route_document`: active rules, descending priority. -/
def active_rules_sorted (st : RouterState) : List RuleRec :=
  sort_rules_desc (st.rules.filter fun r => r.is_active)

/-- The rule-scan loop of `route_document`: first rule whose condition
evaluates to true; the `break` means later rules are never examined. -/
def find_matched_rule (context : List (String × JVal)) :
    List RuleRec → Option RuleRec
  | [] => none
  | r :: rest =>
    if evaluate_rule_condition r.condition context then some r
    else find_matched_rule context rest

/-- The matched rule, falling back to the synthesized default rule. (The
subsequent `if not matched_rule: return None` of the source is unreachable:
`_get_default_routing_rule` always returns an object.) -/
def matched_or_default (rules : List RuleRec) (context : List (String × JVal))
    (doc_type : String) : RuleRec :=
  match find_matched_rule context rules with
  | some r => r
  | none => get_default_routing_rule doc_type

/-- `DocumentRouter.route_document`: returns the result dictionary (or `None`)
together with the database state after the call. -/
def route_document (st : RouterState) (document_id doc_type : String)
    (confidence : ℚ) (entities : List (String × JVal)) (risk_score : ℚ)
    (priority : Int) (now : ℚ) : Option RouteResult × RouterState :=
  let context := build_context doc_type confidence entities risk_score priority
  let matched_rule := matched_or_default (active_rules_sorted st) context doc_type
  match find_best_assignee st matched_rule context with
  | none => (none, st)
  | some assignee =>
    let assignment : AssignmentRec :=
      { id := st.next_assignment_id
        doc_id := document_id
        user_id := assignee.user_id
        assigned_by := "routing_engine"
        status := "assigned"
        priority := priority
        due_date := calculate_due_date priority doc_type now
        created_at := now
        completed_at := none }
    (some { assignment_id := assignment.id
            assigned_to := assignee.username
            user_id := assignee.user_id
            routing_reason := "Matched rule: " ++ matched_rule.name
            priority := priority
            due_date := assignment.due_date },
     { st with assignments := st.assignments ++ [assignment]
               next_assignment_id := st.next_assignment_id + 1 })

/-- The completed-assignments query of `get_routing_statistics`: status
`completed` and a non-null `completed_at`. -/
def completed_with_timestamp (st : RouterState) : List AssignmentRec :=
  st.assignments.filter fun a => a.status == "completed" && a.completed_at.isSome

/-- The result dictionary of `get_routing_statistics`. -/
structure RoutingStatistics where
  total_assignments : Nat
  status_distribution : List (String × Nat)
  avg_completion_time_hours : ℚ
  user_workloads : List (String × Nat)
deriving DecidableEq

/-- `DocumentRouter.get_routing_statistics`. The source computes the total
count, the per-status counts, and the average completion time (`total_time`
accumulating `total_seconds()` of each interval, hours × 3600, divided back
by 3600), but then builds the per-worker workload query as
`db.func.count(...)` where `db` is a plain `sqlalchemy.orm.Session` (from
`sessionmaker`, `libs/database/connection.py`). `Session` has no `func`
attribute — elsewhere the repository imports `func` from sqlalchemy — so
every call raises `AttributeError` at that line, and the result dictionary
(whose construction would also apply `round(avg, 2)`) is never built or
returned. The computations before the raise have no observable effect. -/
def get_routing_statistics (st : RouterState) :
    Except String RoutingStatistics :=
  let _total_assignments := st.assignments.length
  let _status_counts :=
    ["assigned", "in_progress", "completed", "overdue"].map fun s =>
      (s, (st.assignments.filter fun a => a.status == s).length)
  let completed := completed_with_timestamp st
  let _avg_completion_time : ℚ :=
    if completed.isEmpty then 0
    else (completed.map fun a =>
      (a.completed_at.getD 0 - a.created_at) * 3600).sum /
      (completed.length : ℚ) / 3600
  .error "AttributeError: Session object has no attribute func"

/-! Concrete inputs used by the witness and counterexample theorems. -/

/-- A priority-5 rule matching `doc_type = contract`. -/
def c1_rule_high : RuleRec :=
  { name := "high", condition := [("doc_type", .s "contract")]
    assignee := some "alice", team := none, priority := 5, is_active := true }

/-- A priority-3 rule matching the same documents. -/
def c1_rule_low : RuleRec :=
  { name := "low", condition := [("doc_type", .s "contract")]
    assignee := some "bob", team := none, priority := 3, is_active := true }

/-- A context both rules above match. -/
def c1_context : List (String × JVal) := [("doc_type", .s "contract")]

/-- An active worker whose department is the replace-all image `xy` of the
team name `x-teamy`. -/
def c3_worker_xy : UserRec :=
  { id := "1", username := "wxy", department := some "xy", skills := []
    workload_capacity := 10, is_active := true }

/-- A second active worker in an unrelated department. -/
def c3_worker_zz : UserRec :=
  { id := "2", username := "wzz", department := some "zz", skills := []
    workload_capacity := 10, is_active := true }

def c3_state : RouterState :=
  { rules := [], users := [c3_worker_xy, c3_worker_zz], assignments := []
    next_assignment_id := 0 }

/-- A rule whose assignee `x-teamy` contains `-team` in the middle, not as a
suffix, and names no user. -/
def c3_rule : RuleRec :=
  { name := "r", condition := [], assignee := some "x-teamy", team := none
    priority := 5, is_active := true }

def c4_worker_a : UserRec :=
  { id := "A", username := "worker_a", department := some "legal", skills := []
    workload_capacity := 10, is_active := true }

def c4_worker_b : UserRec :=
  { id := "B", username := "worker_b", department := some "legal", skills := []
    workload_capacity := 10, is_active := true }

/-- An active assignment for the given worker. -/
def c4_assignment (i : Nat) (uid : String) : AssignmentRec :=
  { id := i, doc_id := "d", user_id := uid, assigned_by := "routing_engine"
    status := "assigned", priority := 3, due_date := 0, created_at := 0
    completed_at := none }

/-- Worker A carries 2 active assignments, worker B carries 5. -/
def c4_state : RouterState :=
  { rules := [], users := [c4_worker_a, c4_worker_b]
    assignments :=
      [c4_assignment 0 "A", c4_assignment 1 "A",
       c4_assignment 2 "B", c4_assignment 3 "B", c4_assignment 4 "B",
       c4_assignment 5 "B", c4_assignment 6 "B"]
    next_assignment_id := 7 }

/-- A context with a `doc_type` neither worker has as a skill. -/
def c4_context : List (String × JVal) := [("doc_type", .s "contract")]

/-- A single inactive worker. -/
def c7_user : UserRec :=
  { id := "u1", username := "bob", department := some "legal", skills := []
    workload_capacity := 10, is_active := false }

def c7_state : RouterState :=
  { rules := [], users := [c7_user], assignments := [], next_assignment_id := 0 }

/-- A single active worker in department `legal`, capacity 1, no skills. -/
def c8_user : UserRec :=
  { id := "u1", username := "alice", department := some "legal", skills := []
    workload_capacity := 1, is_active := true }

def c8_state : RouterState :=
  { rules := [], users := [c8_user], assignments := [], next_assignment_id := 0 }

/-- A condition mapping every field to an empty nested object. -/
def c10_condition : List (String × JVal) :=
  [("doc_type", .obj []), ("risk_score", .obj [])]

/-- A context giving those fields values of arbitrary runtime types. -/
def c10_context : List (String × JVal) :=
  [("doc_type", .n 3), ("risk_score", .s "high")]

/-! Helper lemmas shared by the claim theorems. -/

/-- Unfolding `route_document` when the assignee selector fails. -/
theorem route_document_none_eq (st : RouterState) (document_id doc_type : String)
    (confidence : ℚ) (entities : List (String × JVal)) (risk_score : ℚ)
    (priority : Int) (now : ℚ)
    (h : find_best_assignee st
      (matched_or_default (active_rules_sorted st)
        (build_context doc_type confidence entities risk_score priority) doc_type)
      (build_context doc_type confidence entities risk_score priority) = none) :
    route_document st document_id doc_type confidence entities risk_score
      priority now = (none, st) := by
  simp only [route_document]
  rw [h]

/-- Unfolding `route_document` when the assignee selector succeeds. -/
theorem route_document_some_eq (st : RouterState) (document_id doc_type : String)
    (confidence : ℚ) (entities : List (String × JVal)) (risk_score : ℚ)
    (priority : Int) (now : ℚ) (a : AssigneeInfo)
    (h : find_best_assignee st
      (matched_or_default (active_rules_sorted st)
        (build_context doc_type confidence entities risk_score priority) doc_type)
      (build_context doc_type confidence entities risk_score priority) = some a) :
    route_document st document_id doc_type confidence entities risk_score
      priority now =
      (some { assignment_id := st.next_assignment_id
              assigned_to := a.username
              user_id := a.user_id
              routing_reason := "Matched rule: " ++
                (matched_or_default (active_rules_sorted st)
                  (build_context doc_type confidence entities risk_score priority)
                  doc_type).name
              priority := priority
              due_date := calculate_due_date priority doc_type now },
       { st with
          assignments := st.assignments ++
            [{ id := st.next_assignment_id
               doc_id := document_id
               user_id := a.user_id
               assigned_by := "routing_engine"
               status := "assigned"
               priority := priority
               due_date := calculate_due_date priority doc_type now
               created_at := now
               completed_at := none }]
          next_assignment_id := st.next_assignment_id + 1 }) := by
  simp only [route_document]
  rw [h]

/-- C2: the Condition Evaluator returns true iff every constraint whose field
is present in the context is satisfied by `match_value` (plain string:
case-insensitive substring against a string value or any string element of a
list value, any other value type no match; number: numeric equality with a
numeric value; nested object: all of gt/lt/gte/lte/contains hold, numeric
comparisons failing on non-numeric values); a field named in the condition
but absent from the context imposes nothing and never fails the rule. -/
theorem condition_evaluator_iff_all_present_satisfied
    (condition context : List (String × JVal)) :
    evaluate_rule_condition condition context = true ↔
      ∀ p ∈ condition, ∀ cv, lookupJ p.1 context = some cv →
        match_value p.2 cv = true := by
  induction condition with
  | nil => simp [evaluate_rule_condition]
  | cons p rest ih =>
    obtain ⟨k, v⟩ := p
    cases hl : lookupJ k context with
    | none =>
      simp [evaluate_rule_condition, hl, ih, List.forall_mem_cons]
    | some cv =>
      by_cases hm : match_value v cv = true
      · simp [evaluate_rule_condition, hl, hm, ih, List.forall_mem_cons]
      · simp [evaluate_rule_condition, hl, hm, List.forall_mem_cons]

/-- C10: a nested constraint object containing none of the recognized keys
gt, lt, gte, lte, contains is treated as satisfied, so a condition mapping
every field to such an object matches every context, regardless of the
context values' types. -/
theorem empty_object_constraint_matches
    (condition context : List (String × JVal))
    (h : ∀ p ∈ condition, ∃ fields, p.2 = JVal.obj fields ∧
      lookupJ "gt" fields = none ∧ lookupJ "lt" fields = none ∧
      lookupJ "gte" fields = none ∧ lookupJ "lte" fields = none ∧
      lookupJ "contains" fields = none) :
    evaluate_rule_condition condition context = true := by
  induction condition with
  | nil => rfl
  | cons p rest ih =>
    obtain ⟨k, v⟩ := p
    obtain ⟨fields, hv, hgt, hlt, hgte, hlte, hc⟩ :=
      h (k, v) (List.mem_cons_self _ _)
    have hrest := ih fun q hq => h q (List.mem_cons_of_mem _ hq)
    cases hl : lookupJ k context with
    | none => simp [evaluate_rule_condition, hl, hrest]
    | some cv =>
      have hmv : match_value v cv = true := by
        simp only at hv
        subst hv
        simp [match_value, dict_match, cmp_check, contains_check,
          hgt, hlt, hgte, hlte, hc]
      simp [evaluate_rule_condition, hl, hmv, hrest]

/-- Witness for C10: both fields of `c10_condition` map to the empty nested
object, and the condition matches a context holding a number and a string. -/
theorem empty_object_constraint_matches_witness :
    (∀ p ∈ c10_condition, ∃ fields, p.2 = JVal.obj fields ∧
      lookupJ "gt" fields = none ∧ lookupJ "lt" fields = none ∧
      lookupJ "gte" fields = none ∧ lookupJ "lte" fields = none ∧
      lookupJ "contains" fields = none) ∧
    evaluate_rule_condition c10_condition c10_context = true := by
  have h : ∀ p ∈ c10_condition, ∃ fields, p.2 = JVal.obj fields ∧
      lookupJ "gt" fields = none ∧ lookupJ "lt" fields = none ∧
      lookupJ "gte" fields = none ∧ lookupJ "lte" fields = none ∧
      lookupJ "contains" fields = none := by
    intro p hp
    simp only [c10_condition, List.mem_cons, List.not_mem_nil, or_false] at hp
    rcases hp with rfl | rfl
    · exact ⟨[], rfl, rfl, rfl, rfl, rfl, rfl⟩
    · exact ⟨[], rfl, rfl, rfl, rfl, rfl, rfl⟩
  exact ⟨h, empty_object_constraint_matches c10_condition c10_context h⟩

/-- C1: on a rule list ordered by descending priority, the scan loop of
`route_document` returns a rule whose condition holds, every rule before it
fails (no later rule is ever examined: first-match), and no matching rule in
the list has strictly higher priority — so a matching priority-5 rule is
selected over a matching priority-3 rule. -/
theorem first_match_selects_highest_priority
    (rules : List RuleRec) (context : List (String × JVal))
    (hsorted : rules.Pairwise fun a b => b.priority ≤ a.priority)
    (r : RuleRec) (h : find_matched_rule context rules = some r) :
    evaluate_rule_condition r.condition context = true ∧
    (∃ pre post, rules = pre ++ r :: post ∧
      ∀ r2 ∈ pre, evaluate_rule_condition r2.condition context = false) ∧
    ∀ r2 ∈ rules, evaluate_rule_condition r2.condition context = true →
      r2.priority ≤ r.priority := by
  induction rules with
  | nil => cases h
  | cons r0 rest ih =>
    rw [List.pairwise_cons] at hsorted
    obtain ⟨hhead, htail⟩ := hsorted
    cases he : evaluate_rule_condition r0.condition context with
    | true =>
      have hr : r0 = r := by
        have := h
        simp [find_matched_rule, he] at this
        exact this
      subst hr
      refine ⟨he, ⟨[], rest, rfl, by simp⟩, ?_⟩
      intro r2 hr2 _
      rcases List.mem_cons.mp hr2 with rfl | hr2
      · exact le_refl _
      · exact hhead r2 hr2
    | false =>
      have h2 : find_matched_rule context rest = some r := by
        simpa [find_matched_rule, he] using h
      obtain ⟨h1, ⟨pre, post, heq, hpre⟩, h3⟩ := ih htail h2
      refine ⟨h1, ⟨r0 :: pre, post, by rw [heq]; rfl, ?_⟩, ?_⟩
      · intro r2 hr2
        rcases List.mem_cons.mp hr2 with rfl | hr2
        · exact he
        · exact hpre r2 hr2
      · intro r2 hr2 hev
        rcases List.mem_cons.mp hr2 with rfl | hr2
        · simp [he] at hev
        · exact h3 r2 hr2 hev

/-- Witness for C1: with a matching priority-5 rule and a matching priority-3
rule, the scan selects the priority-5 rule, and every matching rule's
priority is bounded by the selected rule's. -/
theorem first_match_selects_highest_priority_witness :
    find_matched_rule c1_context [c1_rule_high, c1_rule_low] =
      some c1_rule_high ∧
    (∀ r2 ∈ [c1_rule_high, c1_rule_low],
      evaluate_rule_condition r2.condition c1_context = true →
        r2.priority ≤ c1_rule_high.priority) := by
  have hp : List.Pairwise (fun a b : RuleRec => b.priority ≤ a.priority)
      [c1_rule_high, c1_rule_low] := by
    simp [List.pairwise_cons, c1_rule_high, c1_rule_low]
  have hm : find_matched_rule c1_context [c1_rule_high, c1_rule_low] =
      some c1_rule_high := rfl
  exact ⟨hm,
    (first_match_selects_highest_priority _ c1_context hp c1_rule_high hm).2.2⟩

/-- C5: when no active rule matches, `route_document` resolves the
synthesized default rule: priority 1, its team drawn from the built-in
mapping (contract → legal-team, invoice → finance-team, hr → hr-team,
technical → engineering-team, report → management-team,
correspondence → admin-team), and any document type outside the built-in
mapping yields admin-team. -/
theorem default_routing_rule_fallback
    (rules : List RuleRec) (context : List (String × JVal)) (doc_type : String)
    (h : find_matched_rule context rules = none) :
    matched_or_default rules context doc_type = get_default_routing_rule doc_type ∧
    (get_default_routing_rule doc_type).priority = 1 ∧
    (get_default_routing_rule doc_type).team = some (default_mappings_get doc_type) ∧
    default_mappings_get "contract" = "legal-team" ∧
    default_mappings_get "invoice" = "finance-team" ∧
    default_mappings_get "hr" = "hr-team" ∧
    default_mappings_get "technical" = "engineering-team" ∧
    default_mappings_get "report" = "management-team" ∧
    default_mappings_get "correspondence" = "admin-team" ∧
    (doc_type ∉ (["contract", "invoice", "legal", "financial", "hr",
        "technical", "report", "correspondence"] : List String) →
      default_mappings_get doc_type = "admin-team") := by
  refine ⟨?_, rfl, rfl, rfl, rfl, rfl, rfl, rfl, rfl, ?_⟩
  · simp [matched_or_default, h]
  · intro hmem
    simp only [List.mem_cons, List.not_mem_nil, or_false, not_or] at hmem
    obtain ⟨h1, h2, h3, h4, h5, h6, h7, h8⟩ := hmem
    simp [default_mappings_get, h1, h2, h3, h4, h5, h6, h7, h8]

/-- Witness for C5: under the empty rule set, a contract document resolves to
the default rule for legal-team, and an unrecognized type to admin-team. -/
theorem default_routing_rule_fallback_witness :
    find_matched_rule [] ([] : List RuleRec) = none ∧
    matched_or_default [] [] "contract" = get_default_routing_rule "contract" ∧
    default_mappings_get "contract" = "legal-team" ∧
    default_mappings_get "zzz" = "admin-team" := by
  have h : find_matched_rule ([] : List (String × JVal)) ([] : List RuleRec) =
      none := rfl
  have m1 := default_routing_rule_fallback [] [] "contract" h
  have m2 := default_routing_rule_fallback [] [] "zzz" h
  exact ⟨h, m1.1, m1.2.2.2.1, m2.2.2.2.2.2.2.2.2.2 (by decide)⟩

/-- C6: the due date is now + base_hours(priority) × modifier(doc_type)
hours, with base hours 5↦2, 4↦8, 3↦24, 2↦72, 1↦168 (default 72) and type
modifiers legal↦0.5, contract↦0.5, invoice↦0.7, financial↦0.8, hr↦1.0,
technical↦1.2, report↦1.5, correspondence↦1.0 (default 1.0); in particular
priority 5 with legal gives now + 1 and priority 1 with report now + 252. -/
theorem due_date_formula (priority : Int) (doc_type : String) (now : ℚ) :
    calculate_due_date priority doc_type now =
      now + priority_hours_claim priority * type_modifier_claim doc_type ∧
    calculate_due_date 5 "legal" now = now + 1 ∧
    calculate_due_date 1 "report" now = now + 252 := by
  refine ⟨rfl, ?_, ?_⟩
  · have h1 : priority_hours_get 5 = 2 := rfl
    have h2 : type_modifiers_get "legal" = 1/2 := rfl
    simp only [calculate_due_date, h1, h2]
    norm_num
  · have h1 : priority_hours_get 1 = 168 := rfl
    have h2 : type_modifiers_get "report" = 3/2 := rfl
    simp only [calculate_due_date, h1, h2]
    norm_num

/-- Counterexample for C3: the source translates a team name to a department
with `replace('-team', '')`, which also rewrites non-suffix occurrences.
For the rule naming `x-teamy` the source pools the `xy` department, while
the claim's suffix-stripping reading finds no `x-teamy` department and
falls back to all active workers. -/
theorem candidate_pool_suffix_strip_counterexample :
    candidate_pool c3_state c3_rule ≠
      candidate_pool_with strip_team_suffix c3_state c3_rule := by
  decide

/-- C3 as amended: the candidate pool is built in the claim's preference
order — the specific active worker named by the rule; else the active
workers of the department named by the rule's assignee or team field, where
the team-to-department translation removes every occurrence of `-team`
(Python `str.replace`), not only a suffix; else all active workers. -/
theorem candidate_pool_replace_all_team (st : RouterState) (rule : RuleRec) :
    candidate_pool st rule = candidate_pool_with replace_team st rule := rfl

/-- The selection loop of the Assignee Selector, started with a current best,
returns either the best unchanged (no strict improvement in the rest of the
pool) or the first element of the pool reaching its minimum. -/
theorem select_loop_spec (e : UserRec → ℚ) (pool : List UserRec) (b : UserRec) :
    ∃ u, select_lowest_workload e pool (some (b, e b)) = some (u, e u) ∧
      ((u = b ∧ ∀ v ∈ pool, e b ≤ e v) ∨
       (e u < e b ∧ (∀ v ∈ pool, e u ≤ e v) ∧
        ∃ pre post, pool = pre ++ u :: post ∧ ∀ v ∈ pre, e u < e v)) := by
  induction pool generalizing b with
  | nil => exact ⟨b, rfl, .inl ⟨rfl, by simp⟩⟩
  | cons w rest ih =>
    by_cases hw : e w < e b
    · have hstep : select_lowest_workload e (w :: rest) (some (b, e b)) =
          select_lowest_workload e rest (some (w, e w)) := by
        simp [select_lowest_workload, hw]
      obtain ⟨u, hu, hcase⟩ := ih w
      refine ⟨u, by rw [hstep]; exact hu, .inr ?_⟩
      rcases hcase with ⟨rfl, hmin⟩ | ⟨hlt, hmin, pre, post, heq, hpre⟩
      · refine ⟨hw, ?_, [], rest, rfl, by simp⟩
        intro v hv
        rcases List.mem_cons.mp hv with rfl | hv
        · exact le_refl _
        · exact hmin v hv
      · refine ⟨lt_trans hlt hw, ?_, w :: pre, post, by rw [heq]; rfl, ?_⟩
        · intro v hv
          rcases List.mem_cons.mp hv with rfl | hv
          · exact le_of_lt hlt
          · exact hmin v hv
        · intro v hv
          rcases List.mem_cons.mp hv with rfl | hv
          · exact hlt
          · exact hpre v hv
    · have hb : e b ≤ e w := le_of_not_lt hw
      have hstep : select_lowest_workload e (w :: rest) (some (b, e b)) =
          select_lowest_workload e rest (some (b, e b)) := by
        simp [select_lowest_workload, hw]
      obtain ⟨u, hu, hcase⟩ := ih b
      refine ⟨u, by rw [hstep]; exact hu, ?_⟩
      rcases hcase with ⟨rfl, hmin⟩ | ⟨hlt, hmin, pre, post, heq, hpre⟩
      · refine .inl ⟨rfl, ?_⟩
        intro v hv
        rcases List.mem_cons.mp hv with rfl | hv
        · exact hb
        · exact hmin v hv
      · refine .inr ⟨hlt, ?_, w :: pre, post, by rw [heq]; rfl, ?_⟩
        · intro v hv
          rcases List.mem_cons.mp hv with rfl | hv
          · exact le_trans (le_of_lt hlt) hb
          · exact hmin v hv
        · intro v hv
          rcases List.mem_cons.mp hv with rfl | hv
          · exact lt_of_lt_of_le hlt hb
          · exact hpre v hv

/-- C4: on a non-empty candidate pool the Assignee Selector returns the
worker whose effective workload — active assignments over capacity, minus
0.2 on a skills match — is minimal over the pool, together with that
workload; every pool element before the winner has strictly larger
effective workload (ties resolve to the first encountered). -/
theorem assignee_selector_first_minimum (st : RouterState)
    (context : List (String × JVal)) (pool : List UserRec)
    (hpool : pool ≠ []) :
    ∃ u, select_lowest_workload (effective_workload st context) pool none =
        some (u, effective_workload st context u) ∧
      (∀ v ∈ pool,
        effective_workload st context u ≤ effective_workload st context v) ∧
      ∃ pre post, pool = pre ++ u :: post ∧
        ∀ v ∈ pre,
          effective_workload st context u < effective_workload st context v := by
  obtain ⟨w, rest, rfl⟩ := List.exists_cons_of_ne_nil hpool
  have hstep : select_lowest_workload (effective_workload st context)
      (w :: rest) none =
      select_lowest_workload (effective_workload st context) rest
        (some (w, effective_workload st context w)) := by
    simp [select_lowest_workload]
  obtain ⟨u, hu, hcase⟩ := select_loop_spec (effective_workload st context) rest w
  rcases hcase with ⟨rfl, hmin⟩ | ⟨hlt, hmin, pre, post, heq, hpre⟩
  · refine ⟨u, by rw [hstep]; exact hu, ?_, [], rest, rfl, by simp⟩
    intro v hv
    rcases List.mem_cons.mp hv with rfl | hv
    · exact le_refl _
    · exact hmin v hv
  · refine ⟨u, by rw [hstep]; exact hu, ?_, w :: pre, post, by rw [heq]; rfl, ?_⟩
    · intro v hv
      rcases List.mem_cons.mp hv with rfl | hv
      · exact le_of_lt hlt
      · exact hmin v hv
    · intro v hv
      rcases List.mem_cons.mp hv with rfl | hv
      · exact hlt
      · exact hpre v hv

/-- Witness for C4: two skill-equal capacity-10 workers, A with 2 active
assignments (load 0.2) and B with 5 (load 0.5); the selector picks A. -/
theorem assignee_selector_first_minimum_witness :
    select_lowest_workload (effective_workload c4_state c4_context)
      [c4_worker_a, c4_worker_b] none =
      some (c4_worker_a, effective_workload c4_state c4_context c4_worker_a) ∧
    effective_workload c4_state c4_context c4_worker_a = 1/5 ∧
    effective_workload c4_state c4_context c4_worker_b = 1/2 ∧
    (∃ u, select_lowest_workload (effective_workload c4_state c4_context)
        [c4_worker_a, c4_worker_b] none =
        some (u, effective_workload c4_state c4_context u) ∧
      (∀ v ∈ [c4_worker_a, c4_worker_b],
        effective_workload c4_state c4_context u ≤
          effective_workload c4_state c4_context v) ∧
      ∃ pre post, [c4_worker_a, c4_worker_b] = pre ++ u :: post ∧
        ∀ v ∈ pre,
          effective_workload c4_state c4_context u <
            effective_workload c4_state c4_context v) := by
  have hca : active_assignment_count c4_state c4_worker_a = 2 := rfl
  have hcb : active_assignment_count c4_state c4_worker_b = 5 := rfl
  have hsa : skills_bonus c4_context c4_worker_a = 0 := rfl
  have hsb : skills_bonus c4_context c4_worker_b = 0 := rfl
  have hmaxa : ((max c4_worker_a.workload_capacity 1 : Int) : ℚ) = 10 := by
    norm_num [c4_worker_a]
  have hmaxb : ((max c4_worker_b.workload_capacity 1 : Int) : ℚ) = 10 := by
    norm_num [c4_worker_b]
  have hea : effective_workload c4_state c4_context c4_worker_a = 1/5 := by
    simp only [effective_workload, hca, hsa, hmaxa]
    norm_num
  have heb : effective_workload c4_state c4_context c4_worker_b = 1/2 := by
    simp only [effective_workload, hcb, hsb, hmaxb]
    norm_num
  have hnlt : ¬ (effective_workload c4_state c4_context c4_worker_b <
      effective_workload c4_state c4_context c4_worker_a) := by
    rw [hea, heb]; norm_num
  have hsel : select_lowest_workload (effective_workload c4_state c4_context)
      [c4_worker_a, c4_worker_b] none =
      some (c4_worker_a, effective_workload c4_state c4_context c4_worker_a) := by
    simp [select_lowest_workload, hnlt]
  exact ⟨hsel, hea, heb,
    assignee_selector_first_minimum c4_state c4_context
      [c4_worker_a, c4_worker_b] (by simp)⟩

/-- C7: whenever the assignee selector yields no candidate for the resolved
rule, `route_document` returns `None` (the NoRoute outcome) and the state —
in particular the assignment store — is unchanged. -/
theorem no_candidate_no_route (st : RouterState) (document_id doc_type : String)
    (confidence : ℚ) (entities : List (String × JVal)) (risk_score : ℚ)
    (priority : Int) (now : ℚ)
    (h : find_best_assignee st
      (matched_or_default (active_rules_sorted st)
        (build_context doc_type confidence entities risk_score priority) doc_type)
      (build_context doc_type confidence entities risk_score priority) = none) :
    route_document st document_id doc_type confidence entities risk_score
      priority now = (none, st) := by
  simp only [route_document]
  rw [h]

/-- Witness for C7: all workers inactive, `find_best_assignee` returns none,
and routing leaves the state untouched with no result. -/
theorem no_candidate_no_route_witness :
    (∀ u ∈ c7_state.users, u.is_active = false) ∧
    find_best_assignee c7_state
      (matched_or_default (active_rules_sorted c7_state)
        (build_context "contract" 1 [] 0 3) "contract")
      (build_context "contract" 1 [] 0 3) = none ∧
    route_document c7_state "doc1" "contract" 1 [] 0 3 0 = (none, c7_state) := by
  have h : find_best_assignee c7_state
      (matched_or_default (active_rules_sorted c7_state)
        (build_context "contract" 1 [] 0 3) "contract")
      (build_context "contract" 1 [] 0 3) = none := rfl
  exact ⟨by decide, h, no_candidate_no_route c7_state "doc1" "contract" 1 [] 0 3 0 h⟩

/-- A successful `route_document` call appends exactly one freshly numbered
assignment in status `assigned` for the routed document. -/
theorem route_document_appends (st : RouterState) (document_id doc_type : String)
    (confidence : ℚ) (entities : List (String × JVal)) (risk_score : ℚ)
    (priority : Int) (now : ℚ)
    (h : (route_document st document_id doc_type confidence entities risk_score
      priority now).1.isSome = true) :
    ∃ a : AssignmentRec,
      (route_document st document_id doc_type confidence entities risk_score
        priority now).2.assignments = st.assignments ++ [a] ∧
      a.id = st.next_assignment_id ∧
      (route_document st document_id doc_type confidence entities risk_score
        priority now).2.next_assignment_id = st.next_assignment_id + 1 ∧
      a.doc_id = document_id ∧ a.status = "assigned" := by
  cases hb : find_best_assignee st
      (matched_or_default (active_rules_sorted st)
        (build_context doc_type confidence entities risk_score priority) doc_type)
      (build_context doc_type confidence entities risk_score priority) with
  | none =>
    rw [route_document_none_eq st document_id doc_type confidence entities
      risk_score priority now hb] at h
    simp at h
  | some ai =>
    rw [route_document_some_eq st document_id doc_type confidence entities
      risk_score priority now ai hb]
    exact ⟨_, rfl, rfl, rfl, rfl, rfl⟩

/-- C8: routing the same document twice, each call finding an assignee,
appends two distinct assignment records for that document, both newly
created in status `assigned` — no idempotency check or document-level guard
prevents the second assignment. -/
theorem duplicate_routing_creates_two_assignments (st : RouterState)
    (document_id doc_type : String) (confidence : ℚ)
    (entities : List (String × JVal)) (risk_score : ℚ) (priority : Int)
    (now1 now2 : ℚ)
    (h1 : (route_document st document_id doc_type confidence entities
      risk_score priority now1).1.isSome = true)
    (h2 : (route_document (route_document st document_id doc_type confidence
      entities risk_score priority now1).2 document_id doc_type confidence
      entities risk_score priority now2).1.isSome = true) :
    ∃ a1 a2 : AssignmentRec,
      (route_document (route_document st document_id doc_type confidence
        entities risk_score priority now1).2 document_id doc_type confidence
        entities risk_score priority now2).2.assignments =
        st.assignments ++ [a1, a2] ∧
      a1.doc_id = document_id ∧ a2.doc_id = document_id ∧
      a1.status = "assigned" ∧ a2.status = "assigned" ∧ a1 ≠ a2 := by
  obtain ⟨a1, e1, id1, n1, d1, s1⟩ := route_document_appends st document_id
    doc_type confidence entities risk_score priority now1 h1
  obtain ⟨a2, e2, id2, n2, d2, s2⟩ := route_document_appends
    (route_document st document_id doc_type confidence entities risk_score
      priority now1).2 document_id doc_type confidence entities risk_score
    priority now2 h2
  refine ⟨a1, a2, ?_, d1, d2, s1, s2, ?_⟩
  · rw [e2, e1, List.append_assoc]
    rfl
  · intro hcontra
    have hone : a1.id = st.next_assignment_id + 1 := by rw [hcontra, id2, n1]
    rw [id1] at hone
    omega

/-- Witness for C8: with a single active worker, routing document `doc1`
twice succeeds both times and leaves two distinct `assigned` records for
`doc1` in the store. -/
theorem duplicate_routing_creates_two_assignments_witness :
    (route_document c8_state "doc1" "contract" 1 [] 0 3 0).1.isSome = true ∧
    (route_document (route_document c8_state "doc1" "contract" 1 [] 0 3 0).2
      "doc1" "contract" 1 [] 0 3 0).1.isSome = true ∧
    ∃ a1 a2 : AssignmentRec,
      (route_document (route_document c8_state "doc1" "contract" 1 [] 0 3 0).2
        "doc1" "contract" 1 [] 0 3 0).2.assignments =
        c8_state.assignments ++ [a1, a2] ∧
      a1.doc_id = "doc1" ∧ a2.doc_id = "doc1" ∧
      a1.status = "assigned" ∧ a2.status = "assigned" ∧ a1 ≠ a2 := by
  have h1 : (route_document c8_state "doc1" "contract" 1 [] 0 3 0).1.isSome =
      true := rfl
  have h2 : (route_document (route_document c8_state "doc1" "contract" 1 [] 0
      3 0).2 "doc1" "contract" 1 [] 0 3 0).1.isSome = true := rfl
  exact ⟨h1, h2, duplicate_routing_creates_two_assignments c8_state "doc1"
    "contract" 1 [] 0 3 0 0 h1 h2⟩

/-- C9: the statistics contract is the clear intent, but the code never
fulfils it on any input: `get_routing_statistics` builds its per-worker
workload query with `db.func.count(...)` on a plain SQLAlchemy `Session`,
which has no `func` attribute, so every invocation — whatever the assignment
set — raises `AttributeError` and never returns the statistics dictionary
the claim describes. -/
theorem routing_statistics_always_raises (st : RouterState) :
    get_routing_statistics st =
      .error "AttributeError: Session object has no attribute func" := rfl
